import Mathlib

/-!
Verification of the Target study-tracking application.

Shallow embedding of the study-session lifecycle, hour aggregation,
plan progress and certificate logic of `src/main.py` / `src/models.py`.

Modelling conventions:

* Timestamps (`datetime.utcnow()`) are integers counting seconds.
* `duration_minutes` is an integer, exactly as in the `StudySession` model.
* Python float quantities that are always produced by rounding to a fixed
  number of decimals are stored as integers in the corresponding decimal
  unit: `StudyPlan.completed_hours` / `target_hours` in hundredths of an
  hour (the code always adds `round(x, 2)` values), and aggregate
  `total_hours` values in tenths of an hour (the code always computes
  `round(minutes / 60, 1)`).
* Python's `round(x, k)` on these rationals is modelled as exact
  round-half-up of the scaled value (`roundHalfUp`).  CPython rounds the
  nearest binary double half-to-even, which agrees with exact half-up
  rounding except at ties of the decimal grid; no statement in this file
  depends on a tie.
* Python's `int(x)` (truncation toward zero) is modelled by `Int.div`
  (t-division) of the scaled value.
* The ORM is modelled by explicit lists; `query.filter_by(...).first()`
  becomes `List.find?`, SQL aggregation becomes list folds.
* Each route handler becomes a function on a `DB` state; the
  flash-and-redirect failure paths become an error code paired with the
  unchanged state.
-/

/-- `roundHalfUp n d` is `round(n / d)` (nearest integer, half away from
zero for positive arguments), for a positive denominator `d`:
`⌊n/d + 1/2⌋ = ⌊(2n + d) / (2d)⌋`. -/
def roundHalfUp (n d : ℤ) : ℤ := (2 * n + d).fdiv (2 * d)

/-- Python `int()` applied to the quotient `n / d`: truncation toward zero. -/
def truncDiv (n d : ℤ) : ℤ := Int.tdiv n d

/-- A row of the `study_sessions` table (`src/models.py`, class `StudySession`).
`type_` is the column `type`; `end_time = none` models SQL `NULL` (an active
session).  Timestamps are in seconds. -/
structure StudySession where
  id : ℕ
  student_id : ℕ
  task_id : Option ℕ
  subject : String
  subtitle : String
  start_time : ℤ
  end_time : Option ℤ
  duration_minutes : ℤ
  type_ : String
  is_validated : Bool
  completion_comment : Option String
  completion_link : Option String
  deriving DecidableEq

/-- A row of the `study_plans` table (`src/models.py`, class `StudyPlan`).
`target_hours` and `completed_hours` are in hundredths of an hour. -/
structure StudyPlan where
  id : ℕ
  student_id : ℕ
  mentor_id : ℕ
  target_subject : String
  target_hours : ℤ
  completed_hours : ℤ
  status : String
  deriving DecidableEq

/-- A row of the `certificates` table (`src/models.py`, class `Certificate`).
`total_hours` is in tenths of an hour. -/
structure Certificate where
  id : ℕ
  student_id : ℕ
  verification_code : String
  total_hours : ℤ
  pdf_path : Option String
  is_external : Bool
  deriving DecidableEq

/-- A row of the `users` table (only the fields the formalised logic reads). -/
structure User where
  id : ℕ
  name : String
  email : String
  role : String
  is_approved : Bool
  deriving DecidableEq

/-- The relational store, as explicit lists of rows. -/
structure DB where
  users : List User
  sessions : List StudySession
  plans : List StudyPlan
  certificates : List Certificate
  next_session_id : ℕ
  next_certificate_id : ℕ
  deriving DecidableEq

def emptyDB : DB :=
  { users := [], sessions := [], plans := [], certificates := []
    next_session_id := 1, next_certificate_id := 1 }

/-- Error outcomes of the route handlers (the spec's names for the
flash-and-redirect failure paths). -/
inductive ApiError
  | conflictError
  | notFoundError
  | authorizationError
  | ineligibleError
  | invalidStatus
  deriving DecidableEq

/-- Result of a state-mutating route handler: the resulting store and an
optional error.  On an error the handler flashed a message and redirected
without touching the store, so `db` is the unchanged input store. -/
structure OpResult where
  db : DB
  err : Option ApiError
  deriving DecidableEq

/-- `StudyPlan.query.filter_by(student_id=sid, target_subject=subject).first()`
followed by `plan.completed_hours += inc` (`src/main.py:385-387` and
`443-445`): adds `inc` (hundredths of an hour) to the first plan of student
`sid` whose `target_subject` equals `subject` (case-sensitive SQL `=`);
a no-op when no plan matches. -/
def updatePlanProgress : List StudyPlan → ℕ → String → ℤ → List StudyPlan
  | [], _, _, _ => []
  | p :: ps, sid, subject, inc =>
    if p.student_id = sid ∧ p.target_subject = subject then
      { p with completed_hours := p.completed_hours + inc } :: ps
    else
      p :: updatePlanProgress ps sid subject inc

/-- `log_study` (`src/main.py:365-391`): one-shot manual session log.
Creates an already-closed session backdated by `minutes`
(`start_time = now - minutes`, `end_time = now`), marked validated, then
updates plan progress by `round(minutes / 60, 2)` hours. -/
def log_study (db : DB) (now : ℤ) (student_id : ℕ)
    (subject subtitle : String) (minutes : ℤ) : DB :=
  let new_session : StudySession :=
    { id := db.next_session_id
      student_id := student_id
      task_id := none
      subject := subject
      subtitle := subtitle
      start_time := now - minutes * 60
      end_time := some now
      duration_minutes := minutes
      type_ := "free"
      is_validated := true
      completion_comment := none
      completion_link := none }
  { db with
    sessions := db.sessions ++ [new_session]
    plans := updatePlanProgress db.plans student_id subject
      (roundHalfUp (100 * minutes) 60)
    next_session_id := db.next_session_id + 1 }

/-- The `filter_by(student_id=..., end_time=None)` condition of
`src/main.py:401`: the session is an active (open) session of the student. -/
def openFor (student_id : ℕ) (s : StudySession) : Bool :=
  s.student_id == student_id && s.end_time.isNone

/-- `start_session` (`src/main.py:393-417`): refuses with a conflict when
the student already has a session with `end_time IS NULL`; otherwise
creates an open session (`start_time = now`, `end_time = NULL`,
`type = 'assisted'` when a task id is given, else `'scheduled'`).
`duration_minutes` and `is_validated` take the column defaults. -/
def start_session (db : DB) (now : ℤ) (student_id : ℕ)
    (subject subtitle : String) (task_id : Option ℕ) : OpResult :=
  match db.sessions.find? (openFor student_id) with
  | some _ => { db := db, err := some .conflictError }
  | none =>
    let new_session : StudySession :=
      { id := db.next_session_id
        student_id := student_id
        task_id := task_id
        subject := subject
        subtitle := subtitle
        start_time := now
        end_time := none
        duration_minutes := 0
        type_ := if task_id.isSome then "assisted" else "scheduled"
        is_validated := false
        completion_comment := none
        completion_link := none }
    { db := { db with
        sessions := db.sessions ++ [new_session]
        next_session_id := db.next_session_id + 1 }
      err := none }

/-- `stop_session` (`src/main.py:419-449`): looks the session up by primary
key (`get_or_404`), rejects a non-owner, then sets `end_time = now`,
`duration_minutes = int((end_time - start_time) minutes)`,
`is_validated = True`, stores the completion artifacts, and updates plan
progress by `round(duration / 60, 2)` hours where `duration` is the exact
(untruncated) elapsed time in minutes, i.e. `(now - start_time)` seconds
over 60.  It does not require the session to still be open. -/
def stop_session (db : DB) (now : ℤ) (student_id : ℕ) (session_id : ℕ)
    (comment link : Option String) : OpResult :=
  match db.sessions.find? (fun s => s.id == session_id) with
  | none => { db := db, err := some .notFoundError }
  | some s =>
    if s.student_id ≠ student_id then
      { db := db, err := some .authorizationError }
    else
      let stopped : StudySession :=
        { s with
          end_time := some now
          duration_minutes := truncDiv (now - s.start_time) 60
          is_validated := true
          completion_comment := comment
          completion_link := link }
      { db := { db with
          sessions := db.sessions.map (fun t => if t.id = session_id then stopped else t)
          plans := updatePlanProgress db.plans student_id s.subject
            (roundHalfUp (100 * (now - s.start_time)) 3600) }
        err := none }

/-- `sum(s.duration_minutes for s in sessions if s.duration_minutes)`
(`src/main.py:345` and `455`): total minutes of a student, skipping falsy
(zero) durations. -/
def total_study_minutes (db : DB) (student_id : ℕ) : ℤ :=
  (((db.sessions.filter (fun s => s.student_id == student_id)).filter
    (fun s => s.duration_minutes != 0)).map (fun s => s.duration_minutes)).sum

/-- `round(total_minutes / 60, 1)` (`src/main.py:346` and `456`): total
hours of a student in tenths of an hour. -/
def total_study_hours (db : DB) (student_id : ℕ) : ℤ :=
  roundHalfUp (10 * total_study_minutes db student_id) 60

/-- The spec's TotalHours formula, written as the spec states it: sum of
`duration_minutes` over all of the student's sessions (a session's null
duration counts as 0 — durations are total functions here, every creation
path of the code sets the column or leaves its default 0), divided by 60,
rounded to 1 decimal (tenths of an hour). -/
def spec_total_hours (db : DB) (student_id : ℕ) : ℤ :=
  roundHalfUp
    (10 * ((db.sessions.filter (fun s => s.student_id == student_id)).map
      (fun s => s.duration_minutes)).sum) 60

/-- `generate_cert` (`src/main.py:451-471`): recomputes the student's total
hours, fails (flash + redirect) when below 1.0 hour (10 tenths), otherwise
persists a certificate whose `total_hours` is the value just computed.
The fresh `uuid4` verification code is passed in as `v_code`. -/
def generate_cert (db : DB) (student_id : ℕ) (v_code : String) : OpResult :=
  let total_hours := total_study_hours db student_id
  if total_hours < 10 then
    { db := db, err := some .ineligibleError }
  else
    let cert : Certificate :=
      { id := db.next_certificate_id
        student_id := student_id
        verification_code := v_code
        total_hours := total_hours
        pdf_path := some ("static/certificates/certificate_" ++ v_code ++ ".pdf")
        is_external := false }
    { db := { db with
        certificates := db.certificates ++ [cert]
        next_certificate_id := db.next_certificate_id + 1 }
      err := none }

/-- `verify_certificate` (`src/main.py:649-652`): pure lookup of a
certificate by `verification_code`; the template shows the certificate or
"not found".  No state is read besides the certificates table and none is
written. -/
def verify_certificate (db : DB) (code : String) : Option Certificate :=
  db.certificates.find? (fun c => c.verification_code == code)

/-- `update_plan_status` (`src/main.py:593-605`): the owning student may
set a plan's `status` to one of `backlog`, `active`, `completed`; nothing
else on the plan changes. -/
def update_plan_status (db : DB) (student_id : ℕ) (plan_id : ℕ)
    (new_status : String) : OpResult :=
  match db.plans.find? (fun p => p.id == plan_id) with
  | none => { db := db, err := some .notFoundError }
  | some p =>
    if p.student_id ≠ student_id then
      { db := db, err := some .authorizationError }
    else if new_status = "backlog" ∨ new_status = "active" ∨ new_status = "completed" then
      { db := { db with
          plans := db.plans.map (fun q => if q.id = plan_id then { q with status := new_status } else q) }
        err := none }
    else
      { db := db, err := some .invalidStatus }

/-- One row of the admin ranking (`src/main.py:134-144`): the formatted
dictionary together with the SQL aggregate `total_minutes` it was built
from (`NULL`, i.e. `none`, for a student with no sessions).  `hours` is in
tenths of an hour: `round((s_minutes or 0) / 60, 1)`. -/
structure RankEntry where
  id : ℕ
  name : String
  total_minutes : Option ℤ
  hours : ℤ
  deriving DecidableEq

/-- `SUM(study_sessions.duration_minutes)` for the left-join group of one
student (`src/main.py:113-123`): SQL `SUM` is `NULL` when the group has no
session rows, otherwise the sum. -/
def student_minutes (sessions : List StudySession) (uid : ℕ) : Option ℤ :=
  let ds := (sessions.filter (fun s => s.student_id == uid)).map
    (fun s => s.duration_minutes)
  if ds.isEmpty then none else some ds.sum

/-- SQLite `ORDER BY` comparison on the nullable aggregate: `NULL` sorts
below every value. -/
def minutesLe : Option ℤ → Option ℤ → Prop
  | none, _ => True
  | some _, none => False
  | some a, some b => a ≤ b

instance : DecidableRel minutesLe := fun a b =>
  match a, b with
  | none, _ => isTrue trivial
  | some _, none => isFalse (fun h => h)
  | some a, some b => inferInstanceAs (Decidable (a ≤ b))

theorem minutesLe_total (a b : Option ℤ) : minutesLe a b ∨ minutesLe b a := by
  match a, b with
  | none, _ => exact Or.inl trivial
  | some _, none => exact Or.inr trivial
  | some x, some y => exact le_total x y

theorem minutesLe_trans {a b c : Option ℤ} (h : minutesLe a b) (h' : minutesLe b c) :
    minutesLe a c := by
  match a, b, c with
  | none, _, _ => trivial
  | some _, none, _ => exact h.elim
  | some _, some _, none => exact h'.elim
  | some _, some _, some _ => exact le_trans h h'

/-- Ascending ranking order: `ORDER BY total_minutes ASC`. -/
def rankAsc (a b : RankEntry) : Prop := minutesLe a.total_minutes b.total_minutes

/-- Descending ranking order: `ORDER BY total_minutes DESC`. -/
def rankDesc (a b : RankEntry) : Prop := minutesLe b.total_minutes a.total_minutes

instance : DecidableRel rankAsc := fun a b =>
  inferInstanceAs (Decidable (minutesLe a.total_minutes b.total_minutes))

instance : DecidableRel rankDesc := fun a b =>
  inferInstanceAs (Decidable (minutesLe b.total_minutes a.total_minutes))

instance : IsTotal RankEntry rankAsc :=
  ⟨fun a b => minutesLe_total a.total_minutes b.total_minutes⟩

instance : IsTotal RankEntry rankDesc :=
  ⟨fun a b => minutesLe_total b.total_minutes a.total_minutes⟩

instance : IsTrans RankEntry rankAsc := ⟨fun _ _ _ => minutesLe_trans⟩

instance : IsTrans RankEntry rankDesc := ⟨fun _ _ _ h h' => minutesLe_trans h' h⟩

/-- The student ranking of `admin_dashboard` (`src/main.py:111-144`):
group all users with role `student` by their summed session minutes
(left join, so students with no sessions get a `NULL` aggregate), order by
the aggregate ascending when `sort_order = "asc"`, else descending
(the route's default), and format each row with
`hours = round((s_minutes or 0) / 60, 1)`. -/
def admin_ranking (db : DB) (sort_order : String) : List RankEntry :=
  let entries := (db.users.filter (fun u => u.role == "student")).map (fun u =>
    let m := student_minutes db.sessions u.id
    { id := u.id, name := u.name, total_minutes := m,
      hours := roundHalfUp (10 * m.getD 0) 60 : RankEntry })
  if sort_order == "asc" then List.insertionSort rankAsc entries
  else List.insertionSort rankDesc entries

/-! ## Arithmetic helper lemmas -/

theorem roundHalfUp_nonneg {n : ℤ} (d : ℤ) (hn : 0 ≤ n) (hd : 0 < d) :
    0 ≤ roundHalfUp n d := by
  rw [roundHalfUp, Int.fdiv_eq_ediv _ (by omega)]
  exact Int.ediv_nonneg (by omega) (by omega)

theorem roundHalfUp_mono {m n : ℤ} (d : ℤ) (hd : 0 < d) (h : m ≤ n) :
    roundHalfUp m d ≤ roundHalfUp n d := by
  rw [roundHalfUp, roundHalfUp, Int.fdiv_eq_ediv _ (by omega),
    Int.fdiv_eq_ediv _ (by omega)]
  exact Int.ediv_le_ediv (by omega) (by omega)

theorem truncDiv_eq_fdiv {n d : ℤ} (hn : 0 ≤ n) (hd : 0 ≤ d) :
    truncDiv n d = n.fdiv d := by
  rw [truncDiv, Int.tdiv_eq_ediv hn hd, Int.fdiv_eq_ediv _ hd]

theorem truncDiv_nonneg {n d : ℤ} (hn : 0 ≤ n) (hd : 0 ≤ d) :
    0 ≤ truncDiv n d := by
  rw [truncDiv, Int.tdiv_eq_ediv hn hd]
  exact Int.ediv_nonneg hn hd

theorem fdiv_mul_cancel (a : ℤ) {b : ℤ} (hb : 0 < b) : (a * b).fdiv b = a := by
  rw [Int.fdiv_eq_ediv _ (by omega)]
  exact Int.mul_ediv_cancel a (by omega)

/-! ## Plan-progress helper lemmas -/

theorem updatePlanProgress_length (ps : List StudyPlan) (sid : ℕ) (subject : String)
    (inc : ℤ) : (updatePlanProgress ps sid subject inc).length = ps.length := by
  induction ps with
  | nil => rfl
  | cons p ps ih =>
    rw [updatePlanProgress]
    by_cases hc : p.student_id = sid ∧ p.target_subject = subject
    · rw [if_pos hc]
      rfl
    · rw [if_neg hc]
      simp [ih]

theorem updatePlanProgress_getElem (ps : List StudyPlan) (sid : ℕ) (subject : String)
    (inc : ℤ) (i : ℕ) :
    (updatePlanProgress ps sid subject inc)[i]? = ps[i]? ∨
      ∃ p, ps[i]? = some p ∧
        (updatePlanProgress ps sid subject inc)[i]? =
          some { p with completed_hours := p.completed_hours + inc } ∧
        p.student_id = sid ∧ p.target_subject = subject := by
  induction ps generalizing i with
  | nil => left; rfl
  | cons p ps ih =>
    rw [updatePlanProgress]
    by_cases hc : p.student_id = sid ∧ p.target_subject = subject
    · rw [if_pos hc]
      cases i with
      | zero => exact Or.inr ⟨p, by simp, by simp, hc.1, hc.2⟩
      | succ j => left; simp
    · rw [if_neg hc]
      cases i with
      | zero => left; simp
      | succ j => simpa using ih j

theorem updatePlanProgress_of_no_match (ps : List StudyPlan) (sid : ℕ) (subject : String)
    (inc : ℤ) (h : ∀ p ∈ ps, ¬(p.student_id = sid ∧ p.target_subject = subject)) :
    updatePlanProgress ps sid subject inc = ps := by
  induction ps with
  | nil => rfl
  | cons p ps ih =>
    rw [updatePlanProgress, if_neg (h p (by simp))]
    rw [ih (fun q hq => h q (by simp [hq]))]

theorem updatePlanProgress_first_match (ps₁ : List StudyPlan) (p : StudyPlan)
    (ps₂ : List StudyPlan) (sid : ℕ) (subject : String) (inc : ℤ)
    (h₁ : ∀ q ∈ ps₁, ¬(q.student_id = sid ∧ q.target_subject = subject))
    (hp : p.student_id = sid ∧ p.target_subject = subject) :
    updatePlanProgress (ps₁ ++ p :: ps₂) sid subject inc =
      ps₁ ++ { p with completed_hours := p.completed_hours + inc } :: ps₂ := by
  induction ps₁ with
  | nil =>
    simp only [List.nil_append]
    rw [updatePlanProgress, if_pos hp]
  | cons q ps₁ ih =>
    simp only [List.cons_append]
    rw [updatePlanProgress, if_neg (h₁ q (by simp))]
    rw [ih (fun r hr => h₁ r (by simp [hr]))]

/-! ## Characterisation of the handlers -/

theorem start_session_conflict {db : DB} {now : ℤ} {student_id : ℕ}
    {subject subtitle : String} {task_id : Option ℕ} {s : StudySession}
    (hf : db.sessions.find? (openFor student_id) = some s) :
    start_session db now student_id subject subtitle task_id =
      { db := db, err := some .conflictError } := by
  unfold start_session
  rw [hf]

theorem start_session_ok {db : DB} {now : ℤ} {student_id : ℕ}
    {subject subtitle : String} {task_id : Option ℕ}
    (hf : db.sessions.find? (openFor student_id) = none) :
    start_session db now student_id subject subtitle task_id =
      { db := { db with
          sessions := db.sessions ++
            [{ id := db.next_session_id
               student_id := student_id
               task_id := task_id
               subject := subject
               subtitle := subtitle
               start_time := now
               end_time := none
               duration_minutes := 0
               type_ := if task_id.isSome then "assisted" else "scheduled"
               is_validated := false
               completion_comment := none
               completion_link := none }]
          next_session_id := db.next_session_id + 1 }
        err := none } := by
  unfold start_session
  rw [hf]

theorem stop_session_notFound {db : DB} {now : ℤ} {student_id session_id : ℕ}
    {comment link : Option String}
    (hf : db.sessions.find? (fun t => t.id == session_id) = none) :
    stop_session db now student_id session_id comment link =
      { db := db, err := some .notFoundError } := by
  unfold stop_session
  rw [hf]

theorem stop_session_unauthorized {db : DB} {now : ℤ} {student_id session_id : ℕ}
    {comment link : Option String} {s : StudySession}
    (hf : db.sessions.find? (fun t => t.id == session_id) = some s)
    (ho : s.student_id ≠ student_id) :
    stop_session db now student_id session_id comment link =
      { db := db, err := some .authorizationError } := by
  unfold stop_session
  rw [hf]
  dsimp only
  rw [if_pos ho]

theorem stop_session_ok {db : DB} {now : ℤ} {student_id session_id : ℕ}
    {comment link : Option String} {s : StudySession}
    (hf : db.sessions.find? (fun t => t.id == session_id) = some s)
    (ho : s.student_id = student_id) :
    stop_session db now student_id session_id comment link =
      { db := { db with
          sessions := db.sessions.map (fun t => if t.id = session_id then
            { s with
              end_time := some now
              duration_minutes := truncDiv (now - s.start_time) 60
              is_validated := true
              completion_comment := comment
              completion_link := link } else t)
          plans := updatePlanProgress db.plans student_id s.subject
            (roundHalfUp (100 * (now - s.start_time)) 3600) }
        err := none } := by
  unfold stop_session
  rw [hf]
  dsimp only
  rw [if_neg (not_not_intro ho)]

theorem generate_cert_ineligible {db : DB} {student_id : ℕ} {v_code : String}
    (h : total_study_hours db student_id < 10) :
    generate_cert db student_id v_code = { db := db, err := some .ineligibleError } := by
  unfold generate_cert
  rw [if_pos h]

theorem generate_cert_ok {db : DB} {student_id : ℕ} {v_code : String}
    (h : ¬total_study_hours db student_id < 10) :
    generate_cert db student_id v_code =
      { db := { db with
          certificates := db.certificates ++
            [{ id := db.next_certificate_id
               student_id := student_id
               verification_code := v_code
               total_hours := total_study_hours db student_id
               pdf_path := some ("static/certificates/certificate_" ++ v_code ++ ".pdf")
               is_external := false }]
          next_certificate_id := db.next_certificate_id + 1 }
        err := none } := by
  unfold generate_cert
  rw [if_neg h]

theorem update_plan_status_db (db : DB) (student_id plan_id : ℕ) (new_status : String) :
    (update_plan_status db student_id plan_id new_status).db.sessions = db.sessions ∧
    (update_plan_status db student_id plan_id new_status).db.certificates = db.certificates ∧
    ((update_plan_status db student_id plan_id new_status).db.plans = db.plans ∨
      (update_plan_status db student_id plan_id new_status).db.plans =
        db.plans.map (fun q => if q.id = plan_id then { q with status := new_status } else q)) := by
  unfold update_plan_status
  cases hf : db.plans.find? (fun p => p.id == plan_id) with
  | none => exact ⟨rfl, rfl, Or.inl rfl⟩
  | some p =>
    dsimp only
    by_cases h1 : p.student_id ≠ student_id
    · rw [if_pos h1]
      exact ⟨rfl, rfl, Or.inl rfl⟩
    · rw [if_neg h1]
      by_cases h2 : new_status = "backlog" ∨ new_status = "active" ∨ new_status = "completed"
      · rw [if_pos h2]
        exact ⟨rfl, rfl, Or.inr rfl⟩
      · rw [if_neg h2]
        exact ⟨rfl, rfl, Or.inl rfl⟩

theorem generate_cert_db (db : DB) (student_id : ℕ) (v_code : String) :
    (generate_cert db student_id v_code).db.sessions = db.sessions ∧
    (generate_cert db student_id v_code).db.plans = db.plans := by
  unfold generate_cert
  by_cases h : total_study_hours db student_id < 10
  · rw [if_pos h]
    exact ⟨rfl, rfl⟩
  · rw [if_neg h]
    exact ⟨rfl, rfl⟩

/-! ## The single-active-session invariant -/

/-- At most one session per student has `end_time = NULL`. -/
def AtMostOneOpen (db : DB) : Prop :=
  ∀ student_id : ℕ, db.sessions.countP (openFor student_id) ≤ 1

/-- One sequential invocation of a session-lifecycle route handler
(`start_session`, `stop_session` or `log_study`), with arbitrary arguments;
a failing invocation leaves the store unchanged. -/
inductive LifecycleStep : DB → DB → Prop
  | start (db : DB) (now : ℤ) (student_id : ℕ) (subject subtitle : String)
      (task_id : Option ℕ) :
      LifecycleStep db (start_session db now student_id subject subtitle task_id).db
  | stop (db : DB) (now : ℤ) (student_id session_id : ℕ)
      (comment link : Option String) :
      LifecycleStep db (stop_session db now student_id session_id comment link).db
  | log (db : DB) (now : ℤ) (student_id : ℕ) (subject subtitle : String)
      (minutes : ℤ) :
      LifecycleStep db (log_study db now student_id subject subtitle minutes)

theorem log_study_preserves_AtMostOneOpen (db : DB) (now : ℤ) (sid : ℕ)
    (subject subtitle : String) (minutes : ℤ) (h : AtMostOneOpen db) :
    AtMostOneOpen (log_study db now sid subject subtitle minutes) := by
  intro student_id
  unfold log_study
  simp only [List.countP_append, List.countP_cons, List.countP_nil, openFor,
    Option.isNone_some, Bool.and_false]
  simpa using h student_id

theorem start_session_preserves_AtMostOneOpen (db : DB) (now : ℤ) (sid : ℕ)
    (subject subtitle : String) (task_id : Option ℕ) (h : AtMostOneOpen db) :
    AtMostOneOpen (start_session db now sid subject subtitle task_id).db := by
  cases hf : db.sessions.find? (openFor sid) with
  | some s =>
    rw [start_session_conflict hf]
    exact h
  | none =>
    rw [start_session_ok hf]
    intro student_id
    simp only [List.countP_append, List.countP_cons, List.countP_nil, openFor,
      Option.isNone_none, Bool.and_true]
    by_cases hs : student_id = sid
    · subst hs
      have h0 : db.sessions.countP (openFor student_id) = 0 :=
        List.countP_eq_zero.mpr (List.find?_eq_none.mp hf)
      rw [h0]
      split <;> omega
    · have hb : (sid == student_id) = false := by
        simpa using fun hh => hs hh.symm
      rw [hb]
      simpa using h student_id

theorem stop_session_preserves_AtMostOneOpen (db : DB) (now : ℤ)
    (student_id session_id : ℕ) (comment link : Option String)
    (h : AtMostOneOpen db) :
    AtMostOneOpen (stop_session db now student_id session_id comment link).db := by
  cases hf : db.sessions.find? (fun t => t.id == session_id) with
  | none =>
    rw [stop_session_notFound hf]
    exact h
  | some s =>
    by_cases ho : s.student_id = student_id
    · rw [stop_session_ok hf ho]
      intro sid2
      rw [List.countP_map]
      refine le_trans (List.countP_mono_left ?_) (h sid2)
      intro t _ hpt
      by_cases hid : t.id = session_id
      · exfalso
        revert hpt
        simp [Function.comp, hid, openFor]
      · simpa [Function.comp, hid] using hpt
    · rw [stop_session_unauthorized hf ho]
      exact h

/-! ## Time/duration invariant under guarded sequential execution -/

/-- Every session was started no later than `clock`, has a non-negative
recorded duration, and when closed its end does not precede its start and
its `duration_minutes` is the floor of the elapsed minutes. -/
def SessionTimesOK (db : DB) (clock : ℤ) : Prop :=
  ∀ s ∈ db.sessions,
    s.start_time ≤ clock ∧ 0 ≤ s.duration_minutes ∧
      ∀ e, s.end_time = some e →
        s.start_time ≤ e ∧ s.duration_minutes = (e - s.start_time).fdiv 60

/-- One sequential invocation of any modelled state-mutating handler with
the shared clock threaded through: each call happens at a time `now` no
earlier than the previous call's, and a manual log submits a non-negative
number of minutes (the guards under which the spec's duration and
monotonicity invariants hold). -/
inductive GStep : DB × ℤ → DB × ℤ → Prop
  | start (db : DB) (clock now : ℤ) (student_id : ℕ) (subject subtitle : String)
      (task_id : Option ℕ) (ht : clock ≤ now) :
      GStep (db, clock) ((start_session db now student_id subject subtitle task_id).db, now)
  | stop (db : DB) (clock now : ℤ) (student_id session_id : ℕ)
      (comment link : Option String) (ht : clock ≤ now) :
      GStep (db, clock) ((stop_session db now student_id session_id comment link).db, now)
  | log (db : DB) (clock now : ℤ) (student_id : ℕ) (subject subtitle : String)
      (minutes : ℤ) (ht : clock ≤ now) (hm : 0 ≤ minutes) :
      GStep (db, clock) (log_study db now student_id subject subtitle minutes, now)
  | planStatus (db : DB) (clock : ℤ) (student_id plan_id : ℕ) (new_status : String) :
      GStep (db, clock) ((update_plan_status db student_id plan_id new_status).db, clock)
  | genCert (db : DB) (clock : ℤ) (student_id : ℕ) (v_code : String) :
      GStep (db, clock) ((generate_cert db student_id v_code).db, clock)

theorem SessionTimesOK_mono_clock {db : DB} {clock clock' : ℤ}
    (h : SessionTimesOK db clock) (hc : clock ≤ clock') : SessionTimesOK db clock' :=
  fun s hs => ⟨le_trans (h s hs).1 hc, (h s hs).2⟩

theorem log_study_SessionTimesOK {db : DB} {clock now : ℤ} {sid : ℕ}
    {subject subtitle : String} {minutes : ℤ}
    (h : SessionTimesOK db clock) (ht : clock ≤ now) (hm : 0 ≤ minutes) :
    SessionTimesOK (log_study db now sid subject subtitle minutes) now := by
  intro s hs
  unfold log_study at hs
  dsimp only at hs
  have hmul : 0 ≤ minutes * 60 := mul_nonneg hm (by norm_num)
  rcases List.mem_append.mp hs with h1 | h2
  · exact SessionTimesOK_mono_clock h ht s h1
  · have hs' : s =
        { id := db.next_session_id
          student_id := sid
          task_id := none
          subject := subject
          subtitle := subtitle
          start_time := now - minutes * 60
          end_time := some now
          duration_minutes := minutes
          type_ := "free"
          is_validated := true
          completion_comment := none
          completion_link := none } := by
      simpa using h2
    subst hs'
    refine ⟨show now - minutes * 60 ≤ now by omega, hm, ?_⟩
    intro e he
    have hne : now = e := by simpa using he
    subst hne
    refine ⟨show now - minutes * 60 ≤ now by omega, ?_⟩
    show minutes = (now - (now - minutes * 60)).fdiv 60
    rw [show now - (now - minutes * 60) = minutes * 60 by ring]
    exact (fdiv_mul_cancel minutes (by norm_num)).symm

theorem start_session_SessionTimesOK {db : DB} {clock now : ℤ} {sid : ℕ}
    {subject subtitle : String} {task_id : Option ℕ}
    (h : SessionTimesOK db clock) (ht : clock ≤ now) :
    SessionTimesOK (start_session db now sid subject subtitle task_id).db now := by
  cases hf : db.sessions.find? (openFor sid) with
  | some s =>
    rw [start_session_conflict hf]
    exact SessionTimesOK_mono_clock h ht
  | none =>
    rw [start_session_ok hf]
    intro s hs
    dsimp only at hs
    rcases List.mem_append.mp hs with h1 | h2
    · exact SessionTimesOK_mono_clock h ht s h1
    · have hs' : s =
          { id := db.next_session_id
            student_id := sid
            task_id := task_id
            subject := subject
            subtitle := subtitle
            start_time := now
            end_time := none
            duration_minutes := 0
            type_ := if task_id.isSome then "assisted" else "scheduled"
            is_validated := false
            completion_comment := none
            completion_link := none } := by
        simpa using h2
      subst hs'
      exact ⟨le_refl now, le_refl 0, fun e he => Option.noConfusion he⟩

theorem stop_session_SessionTimesOK {db : DB} {clock now : ℤ}
    {student_id session_id : ℕ} {comment link : Option String}
    (h : SessionTimesOK db clock) (ht : clock ≤ now) :
    SessionTimesOK (stop_session db now student_id session_id comment link).db now := by
  cases hf : db.sessions.find? (fun t => t.id == session_id) with
  | none =>
    rw [stop_session_notFound hf]
    exact SessionTimesOK_mono_clock h ht
  | some s =>
    by_cases ho : s.student_id = student_id
    · rw [stop_session_ok hf ho]
      intro x hx
      dsimp only at hx
      rcases List.mem_map.mp hx with ⟨t, htmem, rfl⟩
      by_cases hid : t.id = session_id
      · rw [if_pos hid]
        have hsmem := h s (List.mem_of_find?_eq_some hf)
        have hstart : s.start_time ≤ now := le_trans hsmem.1 ht
        refine ⟨hstart, ?_, ?_⟩
        · show 0 ≤ truncDiv (now - s.start_time) 60
          exact truncDiv_nonneg (by omega) (by norm_num)
        · intro e he
          have hne : now = e := by simpa using he
          subst hne
          refine ⟨hstart, ?_⟩
          show truncDiv (now - s.start_time) 60 = (now - s.start_time).fdiv 60
          exact truncDiv_eq_fdiv (by omega) (by norm_num)
      · rw [if_neg hid]
        exact SessionTimesOK_mono_clock h ht t htmem
    · rw [stop_session_unauthorized hf ho]
      exact SessionTimesOK_mono_clock h ht

theorem GStep_SessionTimesOK {st st' : DB × ℤ} (hstep : GStep st st')
    (h : SessionTimesOK st.1 st.2) : SessionTimesOK st'.1 st'.2 := by
  cases hstep with
  | start db clock now student_id subject subtitle task_id ht =>
    exact start_session_SessionTimesOK h ht
  | stop db clock now student_id session_id comment link ht =>
    exact stop_session_SessionTimesOK h ht
  | log db clock now student_id subject subtitle minutes ht hm =>
    exact log_study_SessionTimesOK h ht hm
  | planStatus db clock student_id plan_id new_status =>
    intro s hs
    rw [(update_plan_status_db db student_id plan_id new_status).1] at hs
    exact h s hs
  | genCert db clock student_id v_code =>
    intro s hs
    rw [(generate_cert_db db student_id v_code).1] at hs
    exact h s hs

/-! ## Claim theorems -/

/-- C1: under sequential operation every session-lifecycle handler
(`start_session`, `stop_session`, `log_study`) preserves the invariant
that each student has at most one session with `end_time = NULL`:
`start_session` refuses to create a session while one is open,
`stop_session` only closes sessions, and `log_study` only creates
already-closed sessions. -/
theorem lifecycle_preserves_atMostOneOpen {db db' : DB}
    (hstep : LifecycleStep db db') (h : AtMostOneOpen db) : AtMostOneOpen db' := by
  cases hstep with
  | start now student_id subject subtitle task_id =>
    exact start_session_preserves_AtMostOneOpen db now student_id subject subtitle task_id h
  | stop now student_id session_id comment link =>
    exact stop_session_preserves_AtMostOneOpen db now student_id session_id comment link h
  | log now student_id subject subtitle minutes =>
    exact log_study_preserves_AtMostOneOpen db now student_id subject subtitle minutes h

/-- Witness for C1: a concrete lifecycle step out of the empty store keeps
the invariant. -/
theorem lifecycle_preserves_atMostOneOpen_witness :
    AtMostOneOpen (log_study emptyDB 1000 7 "AWS" "" 30) :=
  lifecycle_preserves_atMostOneOpen
    (LifecycleStep.log emptyDB 1000 7 "AWS" "" 30)
    (fun student_id => by simp [emptyDB])

/-- C2: when the student already has an open session, `start_session`
returns a conflict and the store — in particular the open session — is
unchanged; when the student has no open session it appends exactly one new
session with `start_time = now`, `end_time = NULL`, and type `assisted`
when a task id was given, else `scheduled`. -/
theorem start_session_conflict_and_success :
    (∀ (db : DB) (now : ℤ) (student_id : ℕ) (subject subtitle : String)
        (task_id : Option ℕ) (s : StudySession),
      s ∈ db.sessions → s.student_id = student_id → s.end_time = none →
        start_session db now student_id subject subtitle task_id =
          { db := db, err := some ApiError.conflictError }) ∧
    (∀ (db : DB) (now : ℤ) (student_id : ℕ) (subject subtitle : String)
        (task_id : Option ℕ),
      (∀ s ∈ db.sessions, ¬(s.student_id = student_id ∧ s.end_time = none)) →
        start_session db now student_id subject subtitle task_id =
          { db := { db with
              sessions := db.sessions ++
                [{ id := db.next_session_id
                   student_id := student_id
                   task_id := task_id
                   subject := subject
                   subtitle := subtitle
                   start_time := now
                   end_time := none
                   duration_minutes := 0
                   type_ := if task_id.isSome then "assisted" else "scheduled"
                   is_validated := false
                   completion_comment := none
                   completion_link := none }]
              next_session_id := db.next_session_id + 1 }
            err := none }) := by
  constructor
  · intro db now student_id subject subtitle task_id s hmem hsid hend
    cases hf : db.sessions.find? (openFor student_id) with
    | some t => exact start_session_conflict hf
    | none =>
      exfalso
      exact List.find?_eq_none.mp hf s hmem (by simp [openFor, hsid, hend])
  · intro db now student_id subject subtitle task_id hnone
    refine start_session_ok (List.find?_eq_none.mpr ?_)
    intro s hs hopen
    apply hnone s hs
    unfold openFor at hopen
    simp only [Bool.and_eq_true, beq_iff_eq, Option.isNone_iff_eq_none] at hopen
    exact hopen

/-- Fixture for the C2 witness: a store holding one open session of
student 3. -/
def sessC2 : StudySession :=
  { id := 1, student_id := 3, task_id := none, subject := "A", subtitle := ""
    start_time := 0, end_time := none, duration_minutes := 0
    type_ := "scheduled", is_validated := false
    completion_comment := none, completion_link := none }

def dbC2 : DB := { emptyDB with sessions := [sessC2], next_session_id := 2 }

/-- Witness for C2: starting a second session for student 3 while
`sessC2` is still open fails with a conflict and leaves the store as it
was. -/
theorem start_session_conflict_and_success_witness :
    (sessC2 ∈ dbC2.sessions ∧ sessC2.student_id = 3 ∧ sessC2.end_time = none) ∧
    start_session dbC2 5 3 "B" "" none = { db := dbC2, err := some ApiError.conflictError } :=
  ⟨⟨by decide, by decide, by decide⟩,
    start_session_conflict_and_success.1 dbC2 5 3 "B" "" none sessC2
      (by decide) (by decide) (by decide)⟩

/-- C3 (amended): when the owner stops a session whose start does not lie
in the future, `stop_session` succeeds and rewrites that session with
`end_time = now`, `is_validated = true` and `duration_minutes` equal to
the floor of the elapsed minutes; and under guarded sequential execution
(`GStep`: non-decreasing clock, non-negative manual-log minutes) every
session always has `duration_minutes ≥ 0`, equal to the floored minute
difference whenever both timestamps are set (`SessionTimesOK`). -/
theorem stop_session_fields_and_duration_invariant :
    (∀ (db : DB) (now : ℤ) (student_id session_id : ℕ)
        (comment link : Option String) (s : StudySession),
      db.sessions.find? (fun t => t.id == session_id) = some s →
      s.student_id = student_id → s.start_time ≤ now →
        (stop_session db now student_id session_id comment link).err = none ∧
        (stop_session db now student_id session_id comment link).db.sessions =
          db.sessions.map (fun t => if t.id = session_id then
            { s with
              end_time := some now
              duration_minutes := (now - s.start_time).fdiv 60
              is_validated := true
              completion_comment := comment
              completion_link := link } else t)) ∧
    (∀ st st' : DB × ℤ, GStep st st' →
      SessionTimesOK st.1 st.2 → SessionTimesOK st'.1 st'.2) := by
  constructor
  · intro db now student_id session_id comment link s hf ho hstart
    rw [stop_session_ok hf ho]
    refine ⟨rfl, ?_⟩
    dsimp only
    rw [truncDiv_eq_fdiv (by omega) (by norm_num)]
  · exact fun st st' hstep h => GStep_SessionTimesOK hstep h

/-- C3 counterexample: `log_study` parses the submitted minutes with
`int(...)` and no validation, so a manual log of `-5` minutes creates a
session with `duration_minutes = -5 < 0`, refuting the unconditional
"`duration_minutes >= 0` always". -/
theorem negative_manual_log_duration_counterexample :
    ∃ s ∈ (log_study emptyDB 1000 7 "AWS" "" (-5)).sessions, s.duration_minutes < 0 := by
  refine ⟨{ id := 1, student_id := 7, task_id := none, subject := "AWS", subtitle := ""
            start_time := 1300, end_time := some 1000, duration_minutes := -5
            type_ := "free", is_validated := true
            completion_comment := none, completion_link := none }, by decide, by decide⟩

/-- Fixture for the C3 witness: one open session of student 7, started at
time 0. -/
def sessC3 : StudySession :=
  { id := 1, student_id := 7, task_id := none, subject := "AWS", subtitle := ""
    start_time := 0, end_time := none, duration_minutes := 0
    type_ := "scheduled", is_validated := false
    completion_comment := none, completion_link := none }

def dbC3 : DB := { emptyDB with sessions := [sessC3], next_session_id := 2 }

/-- Witness for C3: stopping `sessC3` at time 150 succeeds and records
`end_time = 150`, `is_validated = true`, `duration_minutes = ⌊150/60⌋ = 2`. -/
theorem stop_session_fields_and_duration_invariant_witness :
    (dbC3.sessions.find? (fun t => t.id == 1) = some sessC3 ∧
      sessC3.student_id = 7 ∧ sessC3.start_time ≤ 150) ∧
    ((stop_session dbC3 150 7 1 none none).err = none ∧
      (stop_session dbC3 150 7 1 none none).db.sessions =
        dbC3.sessions.map (fun t => if t.id = 1 then
          { sessC3 with
            end_time := some 150
            duration_minutes := ((150 : ℤ) - sessC3.start_time).fdiv 60
            is_validated := true
            completion_comment := none
            completion_link := none } else t)) :=
  ⟨⟨by decide, by decide, by decide⟩,
    stop_session_fields_and_duration_invariant.1 dbC3 150 7 1 none none sessC3
      (by decide) (by decide) (by decide)⟩

/-- Fixtures for C4: a plan of student 7 targeting "AWS" with no recorded
hours, once alone and once together with an open session started at 0. -/
def planC4 : StudyPlan :=
  { id := 1, student_id := 7, mentor_id := 2, target_subject := "AWS"
    target_hours := 1000, completed_hours := 0, status := "active" }

def dbC4 : DB := { emptyDB with plans := [planC4] }

def sessC4 : StudySession :=
  { id := 1, student_id := 7, task_id := none, subject := "AWS", subtitle := ""
    start_time := 0, end_time := none, duration_minutes := 0
    type_ := "scheduled", is_validated := false
    completion_comment := none, completion_link := none }

def dbC4s : DB := { emptyDB with sessions := [sessC4], plans := [planC4], next_session_id := 2 }

/-- C4 (amended): completing a session updates the student's first plan
whose `target_subject` equals the session's subject case-sensitively, and
is silently a no-op when no plan matches; `log_study` adds
`round(minutes/60, 2)` hours (here in hundredths,
`roundHalfUp (100*minutes) 60`), while `stop_session` adds
`round(duration/60, 2)` hours of the exact untruncated elapsed duration
(`roundHalfUp (100*(now - start_time)) 3600`), not of the stored integer
`duration_minutes`; a 90-minute manual log against a matching plan adds
exactly 1.50 hours. -/
theorem plan_progress_update_characterisation :
    (∀ (db : DB) (now : ℤ) (sid : ℕ) (subject subtitle : String) (minutes : ℤ)
        (ps₁ : List StudyPlan) (p : StudyPlan) (ps₂ : List StudyPlan),
      db.plans = ps₁ ++ p :: ps₂ →
      (∀ q ∈ ps₁, ¬(q.student_id = sid ∧ q.target_subject = subject)) →
      p.student_id = sid → p.target_subject = subject →
        (log_study db now sid subject subtitle minutes).plans =
          ps₁ ++ { p with completed_hours :=
            p.completed_hours + roundHalfUp (100 * minutes) 60 } :: ps₂) ∧
    (∀ (db : DB) (now : ℤ) (sid : ℕ) (subject subtitle : String) (minutes : ℤ),
      (∀ q ∈ db.plans, ¬(q.student_id = sid ∧ q.target_subject = subject)) →
        (log_study db now sid subject subtitle minutes).plans = db.plans) ∧
    (∀ (db : DB) (now : ℤ) (student_id session_id : ℕ)
        (comment link : Option String) (s : StudySession)
        (ps₁ : List StudyPlan) (p : StudyPlan) (ps₂ : List StudyPlan),
      db.sessions.find? (fun t => t.id == session_id) = some s →
      s.student_id = student_id →
      db.plans = ps₁ ++ p :: ps₂ →
      (∀ q ∈ ps₁, ¬(q.student_id = student_id ∧ q.target_subject = s.subject)) →
      p.student_id = student_id → p.target_subject = s.subject →
        (stop_session db now student_id session_id comment link).db.plans =
          ps₁ ++ { p with completed_hours :=
            p.completed_hours + roundHalfUp (100 * (now - s.start_time)) 3600 } :: ps₂) ∧
    (∀ (db : DB) (now : ℤ) (student_id session_id : ℕ)
        (comment link : Option String) (s : StudySession),
      db.sessions.find? (fun t => t.id == session_id) = some s →
      s.student_id = student_id →
      (∀ q ∈ db.plans, ¬(q.student_id = student_id ∧ q.target_subject = s.subject)) →
        (stop_session db now student_id session_id comment link).db.plans = db.plans) ∧
    ((log_study dbC4 1000 7 "AWS" "" 90).plans.map (fun p => p.completed_hours) = [150]) := by
  refine ⟨?_, ?_, ?_, ?_, by decide⟩
  · intro db now sid subject subtitle minutes ps₁ p ps₂ hplans h₁ hp1 hp2
    unfold log_study
    dsimp only
    rw [hplans, updatePlanProgress_first_match ps₁ p ps₂ sid subject _ h₁ ⟨hp1, hp2⟩]
  · intro db now sid subject subtitle minutes hno
    unfold log_study
    dsimp only
    rw [updatePlanProgress_of_no_match db.plans sid subject _ hno]
  · intro db now student_id session_id comment link s ps₁ p ps₂ hf ho hplans h₁ hp1 hp2
    rw [stop_session_ok hf ho]
    dsimp only
    rw [hplans, updatePlanProgress_first_match ps₁ p ps₂ student_id s.subject _ h₁ ⟨hp1, hp2⟩]
  · intro db now student_id session_id comment link s hf ho hno
    rw [stop_session_ok hf ho]
    dsimp only
    rw [updatePlanProgress_of_no_match db.plans student_id s.subject _ hno]

/-- C4 counterexample: stopping a session after 150 seconds (2.5 minutes)
stores `duration_minutes = 2` but adds `round(2.5/60, 2) = 0.04` hours to
the matching plan, while the claim's formula `round(duration_minutes/60, 2)`
gives `round(2/60, 2) = 0.03`: the code updates the plan from the exact
duration, not from `duration_minutes`. -/
theorem stop_session_plan_increment_counterexample :
    ((stop_session dbC4s 150 7 1 none none).db.sessions.map
      (fun s => s.duration_minutes) = [2]) ∧
    ((stop_session dbC4s 150 7 1 none none).db.plans.map
      (fun p => p.completed_hours) = [4]) ∧
    roundHalfUp (100 * 2) 60 = 3 ∧ (4 : ℤ) ≠ 0 + 3 := by decide

/-- Witness for C4: the 90-minute manual log against the matching "AWS"
plan adds exactly 1.50 hours (150 hundredths). -/
theorem plan_progress_update_characterisation_witness :
    (dbC4.plans = [] ++ planC4 :: [] ∧ planC4.student_id = 7 ∧
      planC4.target_subject = "AWS") ∧
    (log_study dbC4 1000 7 "AWS" "" 90).plans =
      [] ++ { planC4 with completed_hours :=
        planC4.completed_hours + roundHalfUp (100 * 90) 60 } :: [] :=
  ⟨⟨by decide, by decide, by decide⟩,
    plan_progress_update_characterisation.1 dbC4 1000 7 "AWS" "" 90 [] planC4 []
      (by decide) (by simp) (by decide) (by decide)⟩

/-- C5: `generate_cert` fails with the ineligibility error exactly when the
recomputed total is below 1.0 hour (10 tenths), leaving the store
unchanged; otherwise it succeeds and appends one certificate whose
`total_hours` is frozen at the just-computed total, and when the minted
code is fresh the resulting store holds exactly one certificate with that
code. -/
theorem generate_cert_eligibility (db : DB) (student_id : ℕ) (v_code : String) :
    ((generate_cert db student_id v_code).err = some ApiError.ineligibleError ↔
      total_study_hours db student_id < 10) ∧
    (total_study_hours db student_id < 10 →
      (generate_cert db student_id v_code).db = db) ∧
    (10 ≤ total_study_hours db student_id →
      (generate_cert db student_id v_code).err = none ∧
      (generate_cert db student_id v_code).db.certificates =
        db.certificates ++
          [{ id := db.next_certificate_id
             student_id := student_id
             verification_code := v_code
             total_hours := total_study_hours db student_id
             pdf_path := some ("static/certificates/certificate_" ++ v_code ++ ".pdf")
             is_external := false }] ∧
      ((∀ c ∈ db.certificates, c.verification_code ≠ v_code) →
        (generate_cert db student_id v_code).db.certificates.countP
          (fun c => c.verification_code == v_code) = 1)) := by
  by_cases h : total_study_hours db student_id < 10
  · rw [generate_cert_ineligible h]
    exact ⟨iff_of_true rfl h, fun _ => rfl, fun h10 => absurd h (by omega)⟩
  · rw [generate_cert_ok h]
    refine ⟨iff_of_false (by simp) h, fun hlt => absurd hlt h, fun _ => ⟨rfl, rfl, ?_⟩⟩
    intro hfresh
    dsimp only
    rw [List.countP_append, List.countP_eq_zero.mpr ?_]
    · simp
    · intro c hc
      simpa using hfresh c hc

/-- Fixture for the C5 witness: student 7 already logged one validated
60-minute session, so the total is exactly 1.0 hour. -/
def sessC5 : StudySession :=
  { id := 1, student_id := 7, task_id := none, subject := "AWS", subtitle := ""
    start_time := 0, end_time := some 3600, duration_minutes := 60
    type_ := "free", is_validated := true
    completion_comment := none, completion_link := none }

def dbC5 : DB := { emptyDB with sessions := [sessC5], next_session_id := 2 }

/-- Witness for C5: with exactly 1.0 hour on record, generation succeeds
and the fresh code occurs exactly once afterwards. -/
theorem generate_cert_eligibility_witness :
    (10 ≤ total_study_hours dbC5 7 ∧ (∀ c ∈ dbC5.certificates, c.verification_code ≠ "code-5")) ∧
    ((generate_cert dbC5 7 "code-5").err = none ∧
      (generate_cert dbC5 7 "code-5").db.certificates.countP
        (fun c => c.verification_code == "code-5") = 1) :=
  ⟨⟨by decide, by decide⟩,
    ((generate_cert_eligibility dbC5 7 "code-5").2.2 (by decide)).1,
    ((generate_cert_eligibility dbC5 7 "code-5").2.2 (by decide)).2.2 (by decide)⟩

/-- C6: a certificate minted by a successful `generate_cert` with a fresh
code is found again by `verify_certificate` under that code, with the same
`student_id` and the frozen `total_hours`; a code held by no certificate
verifies to `none`.  `verify_certificate` is a pure lookup — it is a plain
function of the store and returns no modified store. -/
theorem verify_certificate_roundtrip :
    (∀ (db : DB) (student_id : ℕ) (v_code : String),
      (∀ c ∈ db.certificates, c.verification_code ≠ v_code) →
      (generate_cert db student_id v_code).err = none →
        verify_certificate (generate_cert db student_id v_code).db v_code =
          some { id := db.next_certificate_id
                 student_id := student_id
                 verification_code := v_code
                 total_hours := total_study_hours db student_id
                 pdf_path := some ("static/certificates/certificate_" ++ v_code ++ ".pdf")
                 is_external := false }) ∧
    (∀ (db : DB) (code : String),
      (∀ c ∈ db.certificates, c.verification_code ≠ code) →
        verify_certificate db code = none) := by
  constructor
  · intro db student_id v_code hfresh herr
    by_cases h : total_study_hours db student_id < 10
    · rw [generate_cert_ineligible h] at herr
      exact absurd herr (by simp)
    · rw [generate_cert_ok h]
      unfold verify_certificate
      dsimp only
      rw [List.find?_append, List.find?_eq_none.mpr ?_]
      · simp
      · intro c hc
        simpa using hfresh c hc
  · intro db code hfresh
    unfold verify_certificate
    exact List.find?_eq_none.mpr (fun c hc => by simpa using hfresh c hc)

/-- Fixture for the C6 witness: student 7 has one validated 120-minute
session (2.0 hours). -/
def sessC6 : StudySession :=
  { id := 1, student_id := 7, task_id := none, subject := "AWS", subtitle := ""
    start_time := 0, end_time := some 7200, duration_minutes := 120
    type_ := "free", is_validated := true
    completion_comment := none, completion_link := none }

def dbC6 : DB := { emptyDB with sessions := [sessC6], next_session_id := 2 }

/-- Witness for C6: the code minted for student 7 resolves back to a
certificate with `student_id = 7` and the frozen 2.0-hour total. -/
theorem verify_certificate_roundtrip_witness :
    ((∀ c ∈ dbC6.certificates, c.verification_code ≠ "code-6") ∧
      (generate_cert dbC6 7 "code-6").err = none) ∧
    verify_certificate (generate_cert dbC6 7 "code-6").db "code-6" =
      some { id := 1
             student_id := 7
             verification_code := "code-6"
             total_hours := total_study_hours dbC6 7
             pdf_path := some ("static/certificates/certificate_" ++ "code-6" ++ ".pdf")
             is_external := false } :=
  ⟨⟨by decide, by decide⟩,
    verify_certificate_roundtrip.1 dbC6 7 "code-6" (by decide) (by decide)⟩

/-- Skipping falsy (zero) durations, as the Python generator expression
`sum(s.duration_minutes for s in sessions if s.duration_minutes)` does,
yields the same sum as counting every `duration_minutes`. -/
theorem sum_durations_filter_nonzero (l : List StudySession) :
    ((l.filter (fun s => s.duration_minutes != 0)).map
      (fun s => s.duration_minutes)).sum =
    (l.map (fun s => s.duration_minutes)).sum := by
  induction l with
  | nil => rfl
  | cons s l ih =>
    by_cases hs : s.duration_minutes = 0
    · simp [List.filter_cons, hs, ih]
    · simp [List.filter_cons, hs, ih]

/-- C7 (amended): the dashboard/certificate total
(`round(sum of truthy durations / 60, 1)`) equals the spec's formula
(`round(sum of all durations / 60, 1)`, nulls modelled as total values),
and the total never decreases when a validated session of non-negative
duration is added for the student. -/
theorem total_hours_formula_and_monotone :
    (∀ (db : DB) (student_id : ℕ),
      total_study_hours db student_id = spec_total_hours db student_id) ∧
    (∀ (db : DB) (student_id : ℕ) (s : StudySession),
      s.is_validated = true → 0 ≤ s.duration_minutes →
        total_study_hours db student_id ≤
          total_study_hours { db with sessions := db.sessions ++ [s] } student_id) := by
  have hmin : ∀ (db : DB) (sid : ℕ), total_study_minutes db sid =
      ((db.sessions.filter (fun t => t.student_id == sid)).map
        (fun t => t.duration_minutes)).sum := by
    intro db sid
    unfold total_study_minutes
    exact sum_durations_filter_nonzero _
  constructor
  · intro db sid
    unfold total_study_hours spec_total_hours
    rw [hmin]
  · intro db sid s _ hdur
    unfold total_study_hours
    refine roundHalfUp_mono 60 (by norm_num) ?_
    have hextra : 0 ≤ ((List.filter (fun t => t.student_id == sid) [s]).map
        (fun t => t.duration_minutes)).sum := by
      rw [List.filter_cons]
      by_cases hss : (s.student_id == sid) = true
      · rw [if_pos hss]
        simpa using hdur
      · rw [if_neg hss]
        simp
    have hsum : total_study_minutes { db with sessions := db.sessions ++ [s] } sid =
        total_study_minutes db sid +
          ((List.filter (fun t => t.student_id == sid) [s]).map
            (fun t => t.duration_minutes)).sum := by
      rw [hmin, hmin]
      dsimp only
      rw [List.filter_append, List.map_append, List.sum_append]
    omega

/-- Fixtures for C7: student 7 with one validated 60-minute session, and a
fresh validated 30-minute session to add. -/
def sessC7 : StudySession :=
  { id := 1, student_id := 7, task_id := none, subject := "AWS", subtitle := ""
    start_time := 0, end_time := some 3600, duration_minutes := 60
    type_ := "free", is_validated := true
    completion_comment := none, completion_link := none }

def dbC7 : DB := { emptyDB with sessions := [sessC7], next_session_id := 2 }

def sessC7b : StudySession :=
  { id := 2, student_id := 7, task_id := none, subject := "AWS", subtitle := ""
    start_time := 4000, end_time := some 5800, duration_minutes := 30
    type_ := "free", is_validated := true
    completion_comment := none, completion_link := none }

/-- C7 counterexample: `log_study` accepts a negative manual duration, and
logging -60 minutes adds a validated session that drops student 7's total
from 1.0 hour to 0.0, refuting unconditional monotonicity under "adding
validated sessions". -/
theorem total_hours_monotonicity_counterexample :
    total_study_hours (log_study dbC7 1000 7 "AWS" "" (-60)) 7 <
      total_study_hours dbC7 7 ∧
    (∀ s ∈ (log_study dbC7 1000 7 "AWS" "" (-60)).sessions, s.is_validated = true) := by
  decide

/-- Witness for C7: adding the validated 30-minute session `sessC7b` does
not decrease student 7's total. -/
theorem total_hours_formula_and_monotone_witness :
    (sessC7b.is_validated = true ∧ 0 ≤ sessC7b.duration_minutes) ∧
    total_study_hours dbC7 7 ≤
      total_study_hours { dbC7 with sessions := dbC7.sessions ++ [sessC7b] } 7 :=
  ⟨⟨by decide, by decide⟩,
    total_hours_formula_and_monotone.2 dbC7 7 sessC7b (by decide) (by decide)⟩

theorem start_session_plans (db : DB) (now : ℤ) (sid : ℕ)
    (subject subtitle : String) (task_id : Option ℕ) :
    (start_session db now sid subject subtitle task_id).db.plans = db.plans := by
  cases hf : db.sessions.find? (openFor sid) with
  | some s => rw [start_session_conflict hf]
  | none => rw [start_session_ok hf]

theorem entry_eq_of_getElem {α : Type} {l : List α} {i : ℕ} {p p' : α}
    (hp : l[i]? = some p) (hp' : l[i]? = some p') : p = p' :=
  Option.some.inj (hp.symm.trans hp')

/-- C8 (amended): under guarded sequential execution (`GStep`:
non-decreasing clock, non-negative manual-log minutes) no modelled
operation removes a plan or decreases any plan's `completed_hours`, and
whenever a plan's `completed_hours` changes, the plan's identifying fields
are untouched and the store then holds a completed session of the same
student whose subject equals the plan's `target_subject`. -/
theorem completed_hours_monotone_and_matched (st st' : DB × ℤ)
    (hstep : GStep st st') (hok : SessionTimesOK st.1 st.2) :
    st'.1.plans.length = st.1.plans.length ∧
    ∀ (i : ℕ) (p p' : StudyPlan),
      st.1.plans[i]? = some p → st'.1.plans[i]? = some p' →
        p.completed_hours ≤ p'.completed_hours ∧
        (p'.completed_hours ≠ p.completed_hours →
          p'.student_id = p.student_id ∧ p'.target_subject = p.target_subject ∧
          ∃ s ∈ st'.1.sessions, s.student_id = p.student_id ∧
            s.subject = p.target_subject ∧ s.end_time.isSome = true) := by
  cases hstep with
  | start db clock now student_id subject subtitle task_id ht =>
    refine ⟨by rw [start_session_plans], ?_⟩
    intro i p p' hp hp'
    rw [start_session_plans] at hp'
    obtain rfl := entry_eq_of_getElem hp hp'
    exact ⟨le_rfl, fun hne => absurd rfl hne⟩
  | stop db clock now student_id session_id comment link ht =>
    cases hf : db.sessions.find? (fun t => t.id == session_id) with
    | none =>
      rw [stop_session_notFound hf]
      refine ⟨rfl, ?_⟩
      intro i p p' hp hp'
      obtain rfl := entry_eq_of_getElem hp hp'
      exact ⟨le_rfl, fun hne => absurd rfl hne⟩
    | some s =>
      by_cases ho : s.student_id = student_id
      · rw [stop_session_ok hf ho]
        have hsmem : s ∈ db.sessions := List.mem_of_find?_eq_some hf
        have hsid : s.id = session_id := by simpa using List.find?_some hf
        have hstart : s.start_time ≤ now := le_trans (hok s hsmem).1 ht
        have hinc : 0 ≤ roundHalfUp (100 * (now - s.start_time)) 3600 :=
          roundHalfUp_nonneg _ (by omega) (by norm_num)
        refine ⟨updatePlanProgress_length _ _ _ _, ?_⟩
        intro i p p' hp hp'
        dsimp only at hp' ⊢
        rcases updatePlanProgress_getElem db.plans student_id s.subject
            (roundHalfUp (100 * (now - s.start_time)) 3600) i with
          hsame | ⟨q, hq, hq', hq1, hq2⟩
        · rw [hsame] at hp'
          obtain rfl := entry_eq_of_getElem hp hp'
          exact ⟨le_rfl, fun hne => absurd rfl hne⟩
        · have hqp : q = p := entry_eq_of_getElem hq hp
          rw [hqp] at hq' hq1 hq2
          obtain rfl : p' =
              { p with completed_hours :=
                  p.completed_hours + roundHalfUp (100 * (now - s.start_time)) 3600 } :=
            entry_eq_of_getElem hp' hq'
          refine ⟨le_add_of_nonneg_right hinc, fun _ => ⟨rfl, rfl, ?_⟩⟩
          refine ⟨{ s with
              end_time := some now
              duration_minutes := truncDiv (now - s.start_time) 60
              is_validated := true
              completion_comment := comment
              completion_link := link },
            List.mem_map.mpr ⟨s, hsmem, by rw [if_pos hsid]⟩, ?_, ?_, rfl⟩
          · exact ho.trans hq1.symm
          · exact hq2.symm
      · rw [stop_session_unauthorized hf ho]
        refine ⟨rfl, ?_⟩
        intro i p p' hp hp'
        obtain rfl := entry_eq_of_getElem hp hp'
        exact ⟨le_rfl, fun hne => absurd rfl hne⟩
  | log db clock now student_id subject subtitle minutes ht hm =>
    have hinc : 0 ≤ roundHalfUp (100 * minutes) 60 :=
      roundHalfUp_nonneg _ (by omega) (by norm_num)
    unfold log_study
    refine ⟨updatePlanProgress_length _ _ _ _, ?_⟩
    intro i p p' hp hp'
    dsimp only at hp' ⊢
    rcases updatePlanProgress_getElem db.plans student_id subject
        (roundHalfUp (100 * minutes) 60) i with hsame | ⟨q, hq, hq', hq1, hq2⟩
    · rw [hsame] at hp'
      obtain rfl := entry_eq_of_getElem hp hp'
      exact ⟨le_rfl, fun hne => absurd rfl hne⟩
    · have hqp : q = p := entry_eq_of_getElem hq hp
      rw [hqp] at hq' hq1 hq2
      obtain rfl : p' =
          { p with completed_hours :=
              p.completed_hours + roundHalfUp (100 * minutes) 60 } :=
        entry_eq_of_getElem hp' hq'
      refine ⟨le_add_of_nonneg_right hinc, fun _ => ⟨rfl, rfl, ?_⟩⟩
      refine ⟨{ id := db.next_session_id
                student_id := student_id
                task_id := none
                subject := subject
                subtitle := subtitle
                start_time := now - minutes * 60
                end_time := some now
                duration_minutes := minutes
                type_ := "free"
                is_validated := true
                completion_comment := none
                completion_link := none },
        List.mem_append.mpr (Or.inr (List.mem_singleton.mpr rfl)), hq1.symm, hq2.symm, rfl⟩
  | planStatus db clock student_id plan_id new_status =>
    rcases (update_plan_status_db db student_id plan_id new_status).2.2 with hsame | hmap
    · refine ⟨by rw [hsame], ?_⟩
      intro i p p' hp hp'
      rw [hsame] at hp'
      obtain rfl := entry_eq_of_getElem hp hp'
      exact ⟨le_rfl, fun hne => absurd rfl hne⟩
    · refine ⟨by rw [hmap, List.length_map], ?_⟩
      intro i p p' hp hp'
      rw [hmap, List.getElem?_map, hp] at hp'
      have hpp : p' = if p.id = plan_id then { p with status := new_status } else p :=
        (Option.some.inj hp').symm
      by_cases hid : p.id = plan_id
      · rw [if_pos hid] at hpp
        subst hpp
        exact ⟨le_rfl, fun hne => absurd rfl hne⟩
      · rw [if_neg hid] at hpp
        subst hpp
        exact ⟨le_rfl, fun hne => absurd rfl hne⟩
  | genCert db clock student_id v_code =>
    have hpl := (generate_cert_db db student_id v_code).2
    refine ⟨by rw [hpl], ?_⟩
    intro i p p' hp hp'
    rw [hpl] at hp'
    obtain rfl := entry_eq_of_getElem hp hp'
    exact ⟨le_rfl, fun hne => absurd rfl hne⟩

/-- Fixture for C8: a plan of student 7 targeting "AWS" with 1.00 hour
(100 hundredths) already recorded. -/
def planC8 : StudyPlan :=
  { id := 1, student_id := 7, mentor_id := 2, target_subject := "AWS"
    target_hours := 1000, completed_hours := 100, status := "active" }

def dbC8 : DB := { emptyDB with plans := [planC8] }

/-- C8 counterexample: a manual log of -60 minutes (accepted unvalidated
by the route) adds `round(-60/60, 2) = -1.00` hour to the matching plan,
dropping `completed_hours` from 1.00 to 0.00 — the unconditional claim
"no operation ever decreases it" is false. -/
theorem completed_hours_decrease_counterexample :
    dbC8.plans.map (fun p => p.completed_hours) = [100] ∧
    (log_study dbC8 1000 7 "AWS" "" (-60)).plans.map
      (fun p => p.completed_hours) = [0] := by
  decide

/-- Witness for C8 at a concrete guarded step: a 30-minute manual log from
the fixture store keeps every plan and does not shrink the plan list. -/
theorem completed_hours_monotone_and_matched_witness :
    SessionTimesOK dbC8 0 ∧
    (log_study dbC8 10 7 "AWS" "" 30).plans.length = dbC8.plans.length :=
  ⟨fun s hs => absurd hs (by simp [dbC8, emptyDB]),
    (completed_hours_monotone_and_matched (dbC8, 0) (log_study dbC8 10 7 "AWS" "" 30, 10)
      (GStep.log dbC8 0 10 7 "AWS" "" 30 (by norm_num) (by norm_num))
      (fun s hs => absurd hs (by simp [dbC8, emptyDB]))).1⟩

/-- Fixture for C9: students A (id 1) and B (id 2) with 120 and 60 logged
minutes respectively. -/
def userC9a : User :=
  { id := 1, name := "A", email := "a@example.com", role := "student", is_approved := true }

def userC9b : User :=
  { id := 2, name := "B", email := "b@example.com", role := "student", is_approved := true }

def dbC9 : DB :=
  { emptyDB with
    users := [userC9a, userC9b]
    sessions :=
      [{ id := 1, student_id := 1, task_id := none, subject := "AWS", subtitle := ""
         start_time := 0, end_time := some 7200, duration_minutes := 120
         type_ := "free", is_validated := true
         completion_comment := none, completion_link := none },
       { id := 2, student_id := 2, task_id := none, subject := "AWS", subtitle := ""
         start_time := 0, end_time := some 3600, duration_minutes := 60
         type_ := "free", is_validated := true
         completion_comment := none, completion_link := none }]
    next_session_id := 3 }

/-- C9: the admin ranking contains, for every user of role `student`, an
entry carrying that student's left-join minute aggregate (`none`, shown as
0 hours, for a student with no sessions) formatted as
`round((minutes or 0)/60, 1)` hours; the output is sorted by the aggregate
ascending for `sort = "asc"` and descending otherwise; and with A at 120
and B at 60 logged minutes the descending ranking is A with 2.0 hours
before B with 1.0. -/
theorem admin_ranking_groups_and_sorts :
    (∀ (db : DB) (sort_order : String) (u : User),
      u ∈ db.users → u.role = "student" →
        ∃ e ∈ admin_ranking db sort_order,
          e.id = u.id ∧ e.name = u.name ∧
          e.total_minutes = student_minutes db.sessions u.id ∧
          e.hours = roundHalfUp (10 * (student_minutes db.sessions u.id).getD 0) 60) ∧
    (∀ db : DB, (admin_ranking db "asc").Sorted rankAsc) ∧
    (∀ (db : DB) (sort_order : String), sort_order ≠ "asc" →
      (admin_ranking db sort_order).Sorted rankDesc) ∧
    (admin_ranking dbC9 "desc" =
      [{ id := 1, name := "A", total_minutes := some 120, hours := 20 },
       { id := 2, name := "B", total_minutes := some 60, hours := 10 }]) := by
  refine ⟨?_, ?_, ?_, by decide⟩
  · intro db sort_order u hu hrole
    unfold admin_ranking
    have hmem :
        ({ id := u.id, name := u.name,
           total_minutes := student_minutes db.sessions u.id,
           hours := roundHalfUp (10 * (student_minutes db.sessions u.id).getD 0) 60 } :
             RankEntry) ∈
          (db.users.filter (fun v => v.role == "student")).map (fun v =>
            let m := student_minutes db.sessions v.id
            { id := v.id, name := v.name, total_minutes := m,
              hours := roundHalfUp (10 * m.getD 0) 60 : RankEntry }) :=
      List.mem_map.mpr ⟨u, List.mem_filter.mpr ⟨hu, by simp [hrole]⟩, rfl⟩
    by_cases hso : (sort_order == "asc") = true
    · rw [if_pos hso]
      exact ⟨_, ((List.perm_insertionSort rankAsc _).mem_iff).mpr hmem, rfl, rfl, rfl, rfl⟩
    · rw [if_neg hso]
      exact ⟨_, ((List.perm_insertionSort rankDesc _).mem_iff).mpr hmem, rfl, rfl, rfl, rfl⟩
  · intro db
    unfold admin_ranking
    rw [if_pos (by decide)]
    exact List.sorted_insertionSort rankAsc _
  · intro db sort_order hso
    unfold admin_ranking
    rw [if_neg (by simp [hso])]
    exact List.sorted_insertionSort rankDesc _

/-- Witness for C9: student A appears in the descending ranking of the
fixture store with the aggregate of their sessions. -/
theorem admin_ranking_groups_and_sorts_witness :
    (userC9a ∈ dbC9.users ∧ userC9a.role = "student") ∧
    ∃ e ∈ admin_ranking dbC9 "desc",
      e.id = userC9a.id ∧ e.name = userC9a.name ∧
      e.total_minutes = student_minutes dbC9.sessions userC9a.id ∧
      e.hours = roundHalfUp (10 * (student_minutes dbC9.sessions userC9a.id).getD 0) 60 :=
  ⟨⟨by decide, by decide⟩,
    admin_ranking_groups_and_sorts.1 dbC9 "desc" userC9a (by decide) (by decide)⟩

/-- Fixture for C10: an open "AWS" session of student 7 started at 0,
together with a matching plan with no recorded hours. -/
def sessC10 : StudySession :=
  { id := 1, student_id := 7, task_id := none, subject := "AWS", subtitle := ""
    start_time := 0, end_time := none, duration_minutes := 0
    type_ := "scheduled", is_validated := false
    completion_comment := none, completion_link := none }

def planC10 : StudyPlan :=
  { id := 1, student_id := 7, mentor_id := 2, target_subject := "AWS"
    target_hours := 1000, completed_hours := 0, status := "active" }

def dbC10 : DB :=
  { emptyDB with sessions := [sessC10], plans := [planC10], next_session_id := 2 }

/-- C10: `stop_session` does not require the session to be open.  Stopping
the fixture session at t = 3600 closes it with 60 minutes and credits 1.00
hour to the plan; stopping the *already stopped* session again at t = 7200
succeeds, overwrites `end_time` and `duration_minutes` with fresh values
(7200 and 120), and credits the plan a second time (now 3.00 hours):
the handler is not idempotent and repeated stops double-count progress. -/
theorem stop_session_not_idempotent :
    (stop_session dbC10 3600 7 1 none none).err = none ∧
    ((stop_session dbC10 3600 7 1 none none).db.sessions.map
      (fun s => (s.end_time, s.duration_minutes)) = [(some 3600, 60)]) ∧
    ((stop_session dbC10 3600 7 1 none none).db.plans.map
      (fun p => p.completed_hours) = [100]) ∧
    (stop_session (stop_session dbC10 3600 7 1 none none).db 7200 7 1 none none).err
      = none ∧
    ((stop_session (stop_session dbC10 3600 7 1 none none).db 7200 7 1 none none).db.sessions.map
      (fun s => (s.end_time, s.duration_minutes)) = [(some 7200, 120)]) ∧
    ((stop_session (stop_session dbC10 3600 7 1 none none).db 7200 7 1 none none).db.plans.map
      (fun p => p.completed_hours) = [300]) := by
  decide
